import Mathlib

/-!
Shallow embedding of the marshaling shim in
`Sources/libMySQLWrapper/libMySQLWrapper.c` (SwiftKueryMySQL).

Pointers are modelled as natural numbers with `0` playing the role of the C
`NULL` pointer.  The C heap is modelled explicitly: a byte memory, the set of
live `malloc`ed addresses, a monotone allocation counter, a log of the
addresses passed to `free`, and a flag recording whether `free` was ever
applied to a non-null address that was not live (an invalid/double free).
`malloc` hands out fresh addresses in increasing order, so distinct `malloc`
calls always return distinct addresses, as on a real heap.

The `calloc`ed arrays that the C code manipulates through pointer arithmetic
(`char **allocPointers`, `MYSQL_BIND *newBind`) are modelled structurally as
Lean lists; the heap tracks the one-byte shadow cells that `convertFromBool`
`malloc`s, which are the allocations the specification reasons about.  The
native client-library primitives (`mysql_stmt_bind_param`, `mysql_stmt_fetch`)
are outside this repository; their outcome is supplied to the wrapper
functions as an explicit argument (the status they return, and for fetch the
statement's retained native bind array), so theorems quantify over every
possible native outcome.
-/

namespace MySQLWrapper

/-- Explicit model of the C heap used by the wrapper. -/
structure Heap where
  /-- Next fresh address handed out by `malloc`; addresses are never reused. -/
  nextAddr : Nat
  /-- Addresses currently allocated and not yet freed. -/
  live : List Nat
  /-- Byte memory. -/
  mem : Nat → Nat
  /-- Total number of `malloc` calls performed so far. -/
  allocCount : Nat
  /-- Every non-null address passed to `free`, in call order. -/
  freeLog : List Nat
  /-- Set when `free` is applied to a non-null address that is not live. -/
  invalidFree : Bool

/-- An empty heap whose first fresh address is `1` (so it is never `NULL`). -/
def Heap.init : Heap :=
  { nextAddr := 1, live := [], mem := fun _ => 0, allocCount := 0,
    freeLog := [], invalidFree := false }

/-- `malloc(1)`: returns a fresh non-null address and marks it live. -/
def Heap.malloc (h : Heap) : Nat × Heap :=
  (h.nextAddr,
   { h with nextAddr := h.nextAddr + 1, live := h.nextAddr :: h.live,
            allocCount := h.allocCount + 1 })

/-- Store one byte at an address. -/
def Heap.store (h : Heap) (p : Nat) (v : Nat) : Heap :=
  { h with mem := fun a => if a = p then v else h.mem a }

/-- C `free`: a no-op on `NULL`; removes a live address from the live set;
flags an invalid (double) free otherwise. -/
def Heap.free (h : Heap) (p : Nat) : Heap :=
  if p = 0 then h
  else if p ∈ h.live then
    { h with live := h.live.erase p, freeLog := h.freeLog ++ [p] }
  else
    { h with freeLog := h.freeLog ++ [p], invalidFree := true }

/-- The connection handle; the wrapper only ever consults its server version. -/
structure MYSQL where
  serverVersion : Nat

/-- `mysql_get_server_version`. -/
def mysql_get_server_version (mysql : MYSQL) : Nat :=
  mysql.serverVersion

/-- `convertFromBool` (libMySQLWrapper.c lines 219-236).  Note that the
`malloc` happens before the version test, exactly as in the C source, so the
byte is allocated even on the pass-through (version `>= 80000`) path. -/
def convertFromBool (mysql : MYSQL) (value : Nat) (h : Heap) : Nat × Heap :=
  if value = 0 then (0, h)
  else
    let r := h.malloc
    let val := r.1
    let h1 := r.2
    let version := mysql_get_server_version mysql
    if version < 80000 then
      if h1.mem value = 0 then (val, h1.store val 0)
      else (val, h1.store val 1)
    else (value, h1)

/-- `convertToBool` (libMySQLWrapper.c lines 238-255).  Below the cutover the
C code reads a `char` and compares it to `1`; at or past the cutover it reads
a C `bool` object (whose valid byte representations are `0` and `1`), modelled
as a nonzero test. -/
def convertToBool (mysql : MYSQL) (value : Nat) (h : Heap) : Bool :=
  let version := mysql_get_server_version mysql
  if version < 80000 then
    h.mem value == 1
  else
    h.mem value != 0

/-- The caller-facing stable bind descriptor `WRAPPER_MYSQL_BIND`
(libMySQLWrapper.h lines 36-58).  Pointer-typed fields (including the three
function pointers) are modelled as `Nat`; the `enum enum_field_types` field is
modelled by its integer code. -/
structure WRAPPER_MYSQL_BIND where
  length : Nat
  is_null : Nat
  buffer : Nat
  error : Nat
  row_ptr : Nat
  store_param_func : Nat
  fetch_result : Nat
  skip_result : Nat
  buffer_length : Nat
  offset : Nat
  length_value : Nat
  param_number : Nat
  pack_length : Nat
  buffer_type : Nat
  error_value : Bool
  is_unsigned : Bool
  long_data_used : Bool
  is_null_value : Bool
  extension : Nat

/-- The native client library's bind descriptor `MYSQL_BIND`.  It differs from
the stable descriptor only in the physical width of the `is_null`/`error`
flag cells, which the pointer model absorbs; the field set copied by the
wrapper is identical. -/
structure MYSQL_BIND where
  length : Nat
  is_null : Nat
  buffer : Nat
  error : Nat
  row_ptr : Nat
  store_param_func : Nat
  fetch_result : Nat
  skip_result : Nat
  buffer_length : Nat
  offset : Nat
  length_value : Nat
  param_number : Nat
  pack_length : Nat
  buffer_type : Nat
  error_value : Bool
  is_unsigned : Bool
  long_data_used : Bool
  is_null_value : Bool
  extension : Nat

/-- A zeroed native descriptor, as produced by `calloc`. -/
def MYSQL_BIND.zero : MYSQL_BIND :=
  { length := 0, is_null := 0, buffer := 0, error := 0, row_ptr := 0,
    store_param_func := 0, fetch_result := 0, skip_result := 0,
    buffer_length := 0, offset := 0, length_value := 0, param_number := 0,
    pack_length := 0, buffer_type := 0, error_value := false,
    is_unsigned := false, long_data_used := false, is_null_value := false,
    extension := 0 }

/-- A zeroed stable descriptor, used to build concrete test inputs. -/
def WRAPPER_MYSQL_BIND.zero : WRAPPER_MYSQL_BIND :=
  { length := 0, is_null := 0, buffer := 0, error := 0, row_ptr := 0,
    store_param_func := 0, fetch_result := 0, skip_result := 0,
    buffer_length := 0, offset := 0, length_value := 0, param_number := 0,
    pack_length := 0, buffer_type := 0, error_value := false,
    is_unsigned := false, long_data_used := false, is_null_value := false,
    extension := 0 }

/-- `convert_to_MYSQL_BIND` (libMySQLWrapper.c lines 257-286).  The C function
mutates `newBind` in place and, when a tracking array is supplied and the
version predates the cutover, records the two shadow-cell pointers at slots
`paramIndex*2` and `paramIndex*2+1`; the tracking array is modelled as an
optional list threaded through the call.  The three native function-pointer
fields are explicitly zeroed, as in the source. -/
def convert_to_MYSQL_BIND (mysql : MYSQL) (wrapper : WRAPPER_MYSQL_BIND)
    (newBind : MYSQL_BIND) (allocPointers : Option (List Nat))
    (paramIndex : Nat) (h : Heap) : MYSQL_BIND × Option (List Nat) × Heap :=
  let version := mysql_get_server_version mysql
  let r :=
    if version < 80000 ∧ allocPointers.isSome then
      let r1 := convertFromBool mysql wrapper.is_null h
      let ap1 := (allocPointers.getD []).set (paramIndex * 2) r1.1
      let r2 := convertFromBool mysql wrapper.error r1.2
      let ap2 := ap1.set (paramIndex * 2 + 1) r2.1
      ({ newBind with is_null := r1.1, error := r2.1 }, some ap2, r2.2)
    else
      let r1 := convertFromBool mysql wrapper.is_null h
      let r2 := convertFromBool mysql wrapper.error r1.2
      ({ newBind with is_null := r1.1, error := r2.1 }, allocPointers, r2.2)
  ({ r.1 with
      length := wrapper.length
      buffer := wrapper.buffer
      row_ptr := wrapper.row_ptr
      store_param_func := 0
      fetch_result := 0
      skip_result := 0
      buffer_length := wrapper.buffer_length
      offset := wrapper.offset
      length_value := wrapper.length_value
      param_number := wrapper.param_number
      pack_length := wrapper.pack_length
      buffer_type := wrapper.buffer_type
      error_value := wrapper.error_value
      is_unsigned := wrapper.is_unsigned
      long_data_used := wrapper.long_data_used
      is_null_value := wrapper.is_null_value
      extension := wrapper.extension }, r.2.1, r.2.2)

/-- `convert_from_MYSQL_BIND` (libMySQLWrapper.c lines 288-310).  When the
stable descriptor's `is_null` (resp. `error`) reference is present the decoded
native flag is written through it (a heap store); the wrapper's own pointer
fields and function-pointer fields are not assigned.  Every scalar field,
including `is_null_value` and `error_value`, is copied unconditionally from
the native descriptor, exactly as in the source. -/
def convert_from_MYSQL_BIND (mysql : MYSQL) (bind : MYSQL_BIND)
    (wrapper : WRAPPER_MYSQL_BIND) (h : Heap) :
    WRAPPER_MYSQL_BIND × Heap :=
  let h1 :=
    if wrapper.is_null ≠ 0 then
      h.store wrapper.is_null
        (if convertToBool mysql bind.is_null h then 1 else 0)
    else h
  let h2 :=
    if wrapper.error ≠ 0 then
      h1.store wrapper.error
        (if convertToBool mysql bind.error h1 then 1 else 0)
    else h1
  ({ wrapper with
      length := bind.length
      buffer := bind.buffer
      row_ptr := bind.row_ptr
      buffer_length := bind.buffer_length
      offset := bind.offset
      length_value := bind.length_value
      param_number := bind.param_number
      pack_length := bind.pack_length
      buffer_type := bind.buffer_type
      error_value := bind.error_value
      is_unsigned := bind.is_unsigned
      long_data_used := bind.long_data_used
      is_null_value := bind.is_null_value
      extension := bind.extension }, h2)

/-- The statement handle: its connection and the native bind array the
library retains internally after a bind-results call (`stmt->bind`). -/
structure MYSQL_STMT where
  mysql : MYSQL
  bind : List MYSQL_BIND

/-- The forward-conversion loop of `wrapper_mysql_stmt_bind_param` /
`wrapper_mysql_stmt_bind_result` (libMySQLWrapper.c lines 140-146 and
178-184): converts each stable descriptor in order into a freshly `calloc`ed
(zeroed) native descriptor, threading the tracking array and the heap. -/
def convert_to_loop (mysql : MYSQL) :
    List WRAPPER_MYSQL_BIND → Option (List Nat) → Nat → Heap →
    List MYSQL_BIND × Option (List Nat) × Heap
  | [], ap, _, h => ([], ap, h)
  | w :: ws, ap, index, h =>
      let r := convert_to_MYSQL_BIND mysql w MYSQL_BIND.zero ap index h
      let rs := convert_to_loop mysql ws r.2.1 (index + 1) r.2.2
      (r.1 :: rs.1, rs.2.1, rs.2.2)

/-- The backward-conversion loop shared by the three wrapper calls
(libMySQLWrapper.c lines 150-156, 188-194 and 206-212): converts `bindCount`
native descriptors back into the stable descriptors, in order.  The count is
the common length of the two arrays in every C call site; the loop stops at
the shorter list. -/
def convert_from_loop (mysql : MYSQL) :
    List MYSQL_BIND → List WRAPPER_MYSQL_BIND → Heap →
    List WRAPPER_MYSQL_BIND × Heap
  | _, [], h => ([], h)
  | [], w :: ws, h => (w :: ws, h)
  | b :: bs, w :: ws, h =>
      let r := convert_from_MYSQL_BIND mysql b w h
      let rs := convert_from_loop mysql bs ws r.2
      (r.1 :: rs.1, rs.2)

/-- `wrapper_mysql_stmt_bind_param` (libMySQLWrapper.c lines 130-159).
`nativeResult` is the status the native `mysql_stmt_bind_param` primitive
returns; the C code stores it in a local (`bool result = ...`) and then
returns only the allocation record, so the status never reaches the caller.
The record starts as a `calloc`ed (all-null) array of `2 * bindCount`
entries. -/
def wrapper_mysql_stmt_bind_param (stmt : MYSQL_STMT) (nativeResult : Bool)
    (bind : List WRAPPER_MYSQL_BIND) (h : Heap) :
    List Nat × List WRAPPER_MYSQL_BIND × Heap :=
  let bindCount := bind.length
  let allocPointers : List Nat := List.replicate (bindCount * 2) 0
  let mysql := stmt.mysql
  let r := convert_to_loop mysql bind (some allocPointers) 0 h
  let result := nativeResult
  let rb := convert_from_loop mysql r.1 bind r.2.2
  (r.2.1.getD allocPointers, rb.1, rb.2)

/-- `wrapper_mysql_stmt_fetch` (libMySQLWrapper.c lines 199-214).
`nativeStatus` is whatever the native `mysql_stmt_fetch` returned (success,
`MYSQL_NO_DATA`, truncation, or a fatal error) and `stmt.bind` is the
statement's retained native bind array as the native fetch left it; the
backward conversion runs over all descriptors with no test of the status,
and the status is returned unchanged. -/
def wrapper_mysql_stmt_fetch (stmt : MYSQL_STMT) (nativeStatus : Int)
    (binds : List WRAPPER_MYSQL_BIND) (h : Heap) :
    Int × List WRAPPER_MYSQL_BIND × Heap :=
  let result := nativeStatus
  let rb := convert_from_loop stmt.mysql stmt.bind binds h
  (result, rb.1, rb.2)

/-- The loop of `wrapper_release_params`: `free` each entry in order. -/
def free_list : List Nat → Heap → Heap
  | [], h => h
  | p :: ps, h => free_list ps (h.free p)

/-- `wrapper_release_params` (libMySQLWrapper.c lines 330-336): frees the
first `2 * bindCount` entries of the allocation record, in order. -/
def wrapper_release_params (allocatedParams : List Nat) (bindCount : Nat)
    (h : Heap) : Heap :=
  free_list (allocatedParams.take (bindCount * 2)) h

/-- The sequence of shadow-cell pointers produced, in slot order, by the
forward conversion's `convertFromBool` calls: for each descriptor its
`is_null` encoding then its `error` encoding.  Used to characterise the
allocation record. -/
def shadow_entries (mysql : MYSQL) :
    List WRAPPER_MYSQL_BIND → Heap → List Nat × Heap
  | [], h => ([], h)
  | w :: ws, h =>
      let r1 := convertFromBool mysql w.is_null h
      let r2 := convertFromBool mysql w.error r1.2
      let rs := shadow_entries mysql ws r2.2
      (r1.1 :: r2.1 :: rs.1, rs.2)

/-- `h'` extends `h` by fresh allocations only: the fresh-address counter has
advanced, the free log and invalid-free flag are untouched, the live set has
gained exactly the addresses handed out in between, and memory below the old
fresh-address mark is unchanged.  Used to reason about the heap effect of the
forward conversion. -/
def HeapGrows (h h' : Heap) : Prop :=
  h.nextAddr ≤ h'.nextAddr ∧
  h'.freeLog = h.freeLog ∧
  h'.invalidFree = h.invalidFree ∧
  (∀ p, p ∈ h'.live ↔ p ∈ h.live ∨ (h.nextAddr ≤ p ∧ p < h'.nextAddr)) ∧
  (∀ q, q < h.nextAddr → h'.mem q = h.mem q)

/-! ## Theorems -/

/-! ### Basic facts about the codec -/

/-- `convertFromBool` on a null reference is a no-op returning null. -/
lemma convertFromBool_none (mysql : MYSQL) (h : Heap) :
    convertFromBool mysql 0 h = (0, h) := by
  simp [convertFromBool]

/-- Field-level description of `convertFromBool` on a present reference under
a pre-cutover version: it returns the freshly `malloc`ed cell, initialised
with the legacy `0`/`1` encoding of the referenced boolean. -/
lemma convertFromBool_pre_present (mysql : MYSQL)
    (hv : mysql_get_server_version mysql < 80000)
    (v : Nat) (hvz : v ≠ 0) (h : Heap) :
    (convertFromBool mysql v h).1 = h.nextAddr ∧
    (convertFromBool mysql v h).2.nextAddr = h.nextAddr + 1 ∧
    (convertFromBool mysql v h).2.live = h.nextAddr :: h.live ∧
    (convertFromBool mysql v h).2.freeLog = h.freeLog ∧
    (convertFromBool mysql v h).2.invalidFree = h.invalidFree ∧
    (convertFromBool mysql v h).2.allocCount = h.allocCount + 1 ∧
    (convertFromBool mysql v h).2.mem h.nextAddr
      = (if h.mem v = 0 then 0 else 1) ∧
    (∀ q, q ≠ h.nextAddr → (convertFromBool mysql v h).2.mem q = h.mem q) := by
  unfold convertFromBool Heap.malloc Heap.store
  by_cases hm : h.mem v = 0 <;> simp_all

/-- Field-level description of `convertFromBool` on a present reference at or
past the cutover: it passes the reference through while still `malloc`ing
(and leaking) one byte. -/
lemma convertFromBool_post_present (mysql : MYSQL)
    (hv : ¬ mysql_get_server_version mysql < 80000)
    (v : Nat) (hvz : v ≠ 0) (h : Heap) :
    convertFromBool mysql v h
      = (v, { h with
              nextAddr := h.nextAddr + 1, live := h.nextAddr :: h.live,
              allocCount := h.allocCount + 1 }) := by
  unfold convertFromBool Heap.malloc
  simp [hvz, hv]

/-! ### Claims C7, C2, C10, C1, C6 -/

/-- Counterexample to claim C7 as stated: with an absent `is_null` reference
and a native descriptor whose `is_null_value` is `true`, backward conversion
changes the stable descriptor's `is_null_value` from `false` to `true`, so the
scalar fallback field is not left untouched. -/
theorem backward_convert_fallback_overwritten_cex :
    WRAPPER_MYSQL_BIND.zero.is_null = 0 ∧
    WRAPPER_MYSQL_BIND.zero.is_null_value = false ∧
    (convert_from_MYSQL_BIND { serverVersion := 80000 }
        { MYSQL_BIND.zero with is_null_value := true }
        WRAPPER_MYSQL_BIND.zero Heap.init).1.is_null_value = true :=
  ⟨rfl, rfl, rfl⟩

/-- Claim C7 amended: backward conversion copies the native descriptor's
`is_null_value` and `error_value` scalars into the stable descriptor
unconditionally; the absence of the `is_null`/`error` references suppresses
only the writes through those references (in particular the heap is untouched
when both references are absent). -/
theorem backward_convert_absent_refs (mysql : MYSQL) (bind : MYSQL_BIND)
    (w : WRAPPER_MYSQL_BIND) (h : Heap) :
    ((convert_from_MYSQL_BIND mysql bind w h).1.is_null_value
        = bind.is_null_value ∧
      (convert_from_MYSQL_BIND mysql bind w h).1.error_value
        = bind.error_value) ∧
    (w.is_null = 0 → w.error = 0 →
      (convert_from_MYSQL_BIND mysql bind w h).2 = h) := by
  refine ⟨⟨rfl, rfl⟩, fun hn he => ?_⟩
  simp [convert_from_MYSQL_BIND, hn, he]

/-- Witness for the amended C7 at a concrete input. -/
theorem backward_convert_absent_refs_witness :
    (WRAPPER_MYSQL_BIND.zero.is_null = 0 ∧
      WRAPPER_MYSQL_BIND.zero.error = 0) ∧
    (convert_from_MYSQL_BIND { serverVersion := 70000 } MYSQL_BIND.zero
        WRAPPER_MYSQL_BIND.zero Heap.init).2 = Heap.init :=
  ⟨⟨rfl, rfl⟩,
   (backward_convert_absent_refs { serverVersion := 70000 } MYSQL_BIND.zero
      WRAPPER_MYSQL_BIND.zero Heap.init).2 rfl rfl⟩

/-- Claim C2 (divergence evidence): the result of
`wrapper_mysql_stmt_bind_param` is the same whether the native parameter-bind
primitive succeeds or fails — the wrapper's return value carries no trace of
the native status, so the failure indicator is not propagated to the caller. -/
theorem bind_param_status_not_propagated (stmt : MYSQL_STMT) (r1 r2 : Bool)
    (binds : List WRAPPER_MYSQL_BIND) (h : Heap) :
    wrapper_mysql_stmt_bind_param stmt r1 binds h
      = wrapper_mysql_stmt_bind_param stmt r2 binds h := rfl

/-- Claim C10: `wrapper_mysql_stmt_fetch` returns the native fetch status
unchanged and performs the backward conversion of all descriptors from the
statement's retained native bind array unconditionally — the converted
descriptors and final heap do not depend on the status, including no-more-rows
or fatal-error statuses. -/
theorem stmt_fetch_unconditional (stmt : MYSQL_STMT) (s sOther : Int)
    (binds : List WRAPPER_MYSQL_BIND) (h : Heap) :
    wrapper_mysql_stmt_fetch stmt s binds h
        = (s, convert_from_loop stmt.mysql stmt.bind binds h) ∧
    (wrapper_mysql_stmt_fetch stmt s binds h).2
        = (wrapper_mysql_stmt_fetch stmt sOther binds h).2 :=
  ⟨rfl, rfl⟩

/-- Claim C1 (divergence evidence): at the 8.0 cutover version, encoding a
present boolean reference still performs one heap allocation (the `malloc`
precedes the version test and the byte is leaked on the pass-through path),
and a bind over one descriptor with both references present performs two
shadow-cell allocations rather than zero. -/
theorem post_cutover_allocation_leak :
    (convertFromBool { serverVersion := 80000 } 1 Heap.init).2.allocCount
        = Heap.init.allocCount + 1 ∧
    (convertFromBool { serverVersion := 80000 } 1 Heap.init).1 = 1 ∧
    (wrapper_mysql_stmt_bind_param
        { mysql := { serverVersion := 80000 }, bind := [] } false
        [{ WRAPPER_MYSQL_BIND.zero with is_null := 3, error := 4 }]
        Heap.init).2.2.allocCount = 2 := by
  refine ⟨rfl, rfl, ?_⟩
  rfl

/-- `convert_to_MYSQL_BIND` at or past the cutover leaves the tracking array
untouched. -/
lemma convert_to_ap_post (mysql : MYSQL)
    (hv : ¬ mysql_get_server_version mysql < 80000)
    (w : WRAPPER_MYSQL_BIND) (nb : MYSQL_BIND) (ap : Option (List Nat))
    (i : Nat) (h : Heap) :
    (convert_to_MYSQL_BIND mysql w nb ap i h).2.1 = ap := by
  unfold convert_to_MYSQL_BIND
  simp [hv]

/-- The forward loop at or past the cutover leaves the tracking array
untouched. -/
lemma convert_to_loop_ap_post (mysql : MYSQL)
    (hv : ¬ mysql_get_server_version mysql < 80000) :
    ∀ (ws : List WRAPPER_MYSQL_BIND) (ap : Option (List Nat)) (i : Nat)
      (h : Heap), (convert_to_loop mysql ws ap i h).2.1 = ap
  | [], ap, i, h => rfl
  | w :: ws, ap, i, h => by
      simp only [convert_to_loop]
      rw [convert_to_ap_post mysql hv w MYSQL_BIND.zero ap i h]
      exact convert_to_loop_ap_post mysql hv ws ap (i + 1) _

/-- `convert_to_MYSQL_BIND` keeps the tracking array present with unchanged
length. -/
lemma convert_to_ap_some (mysql : MYSQL) (w : WRAPPER_MYSQL_BIND)
    (nb : MYSQL_BIND) (ap : List Nat) (i : Nat) (h : Heap) :
    ∃ ap2, (convert_to_MYSQL_BIND mysql w nb (some ap) i h).2.1 = some ap2
      ∧ ap2.length = ap.length := by
  unfold convert_to_MYSQL_BIND
  by_cases hv : mysql_get_server_version mysql < 80000 <;> simp [hv]

/-- The forward loop keeps the tracking array present with unchanged
length. -/
lemma convert_to_loop_ap_some (mysql : MYSQL) :
    ∀ (ws : List WRAPPER_MYSQL_BIND) (ap : List Nat) (i : Nat) (h : Heap),
      ∃ ap2, (convert_to_loop mysql ws (some ap) i h).2.1 = some ap2
        ∧ ap2.length = ap.length
  | [], ap, i, h => ⟨ap, rfl, rfl⟩
  | w :: ws, ap, i, h => by
      obtain ⟨ap1, hap1, hlen1⟩ :=
        convert_to_ap_some mysql w MYSQL_BIND.zero ap i h
      simp only [convert_to_loop, hap1]
      obtain ⟨ap2, hap2, hlen2⟩ :=
        convert_to_loop_ap_some mysql ws ap1 (i + 1)
          (convert_to_MYSQL_BIND mysql w MYSQL_BIND.zero (some ap) i h).2.2
      exact ⟨ap2, hap2, by omega⟩

/-! ### Infrastructure for the allocation-symmetry claim -/

/-- The heap effect of `convert_to_MYSQL_BIND` is exactly its two
`convertFromBool` calls, in order, whatever the version and tracking mode. -/
lemma convert_to_heap (mysql : MYSQL) (w : WRAPPER_MYSQL_BIND)
    (nb : MYSQL_BIND) (ap : Option (List Nat)) (i : Nat) (h : Heap) :
    (convert_to_MYSQL_BIND mysql w nb ap i h).2.2
      = (convertFromBool mysql w.error
          (convertFromBool mysql w.is_null h).2).2 := by
  unfold convert_to_MYSQL_BIND
  by_cases hv : mysql_get_server_version mysql < 80000 ∧ ap.isSome <;>
    simp [hv]

/-- Under a pre-cutover version, `convert_to_MYSQL_BIND` records the two
shadow-cell pointers at slots `i*2` and `i*2+1` of the tracking array. -/
lemma convert_to_ap_pre (mysql : MYSQL)
    (hv : mysql_get_server_version mysql < 80000)
    (w : WRAPPER_MYSQL_BIND) (nb : MYSQL_BIND) (ap : List Nat) (i : Nat)
    (h : Heap) :
    (convert_to_MYSQL_BIND mysql w nb (some ap) i h).2.1
      = some ((ap.set (i * 2) (convertFromBool mysql w.is_null h).1).set
          (i * 2 + 1)
          (convertFromBool mysql w.error
            (convertFromBool mysql w.is_null h).2).1) := by
  unfold convert_to_MYSQL_BIND
  simp [hv]

/-- The heap effect of the forward loop is that of `shadow_entries`. -/
lemma convert_to_loop_heap (mysql : MYSQL) :
    ∀ (ws : List WRAPPER_MYSQL_BIND) (ap : Option (List Nat)) (i : Nat)
      (h : Heap),
      (convert_to_loop mysql ws ap i h).2.2 = (shadow_entries mysql ws h).2
  | [], ap, i, h => rfl
  | w :: ws, ap, i, h => by
      simp only [convert_to_loop, shadow_entries]
      rw [convert_to_heap mysql w MYSQL_BIND.zero ap i h]
      exact convert_to_loop_heap mysql ws _ (i + 1) _

/-- Overwriting two adjacent in-range slots and taking the prefix past them
splits as a `take` and the two written values. -/
lemma take_set_two :
    ∀ (l : List Nat) (n : Nat) (a b : Nat), n + 1 < l.length →
      ((l.set n a).set (n + 1) b).take (n + 2) = l.take n ++ [a, b]
  | [], n, a, b, hn => by simp at hn
  | x :: xs, 0, a, b, hn => by
      cases xs with
      | nil => simp at hn
      | cons y ys => simp
  | x :: xs, n + 1, a, b, hn => by
      have := take_set_two xs n a b (by simpa using hn)
      simpa using this

/-- `shadow_entries` yields two entries per descriptor. -/
lemma shadow_entries_length (mysql : MYSQL) :
    ∀ (ws : List WRAPPER_MYSQL_BIND) (h : Heap),
      (shadow_entries mysql ws h).1.length = 2 * ws.length
  | [], h => rfl
  | w :: ws, h => by
      simp only [shadow_entries, List.length_cons]
      have := shadow_entries_length mysql ws
        (convertFromBool mysql w.error
          (convertFromBool mysql w.is_null h).2).2
      omega

/-- Under a pre-cutover version, the forward loop overwrites the tail of the
tracking array (from slot `i*2` on) with exactly the shadow-entry sequence. -/
lemma convert_to_loop_ap_pre (mysql : MYSQL)
    (hv : mysql_get_server_version mysql < 80000) :
    ∀ (ws : List WRAPPER_MYSQL_BIND) (ap : List Nat) (i : Nat) (h : Heap),
      ap.length = i * 2 + 2 * ws.length →
      (convert_to_loop mysql ws (some ap) i h).2.1
        = some (ap.take (i * 2) ++ (shadow_entries mysql ws h).1)
  | [], ap, i, h, hlen => by
      simp only [convert_to_loop, shadow_entries, List.append_nil]
      rw [List.take_of_length_le (by simp at hlen; omega)]
  | w :: ws, ap, i, h, hlen => by
      simp only [convert_to_loop, shadow_entries]
      rw [convert_to_ap_pre mysql hv w MYSQL_BIND.zero ap i h,
        convert_to_heap mysql w MYSQL_BIND.zero (some ap) i h]
      rw [convert_to_loop_ap_pre mysql hv ws _ (i + 1) _
        (by simp at hlen ⊢; omega)]
      have h2i : (i + 1) * 2 = i * 2 + 2 := by ring
      rw [h2i, take_set_two ap (i * 2) _ _ (by simp at hlen; omega)]
      simp

lemma heapGrows_self (h : Heap) : HeapGrows h h := by
  refine ⟨le_rfl, rfl, rfl, fun p => ?_, fun q _ => rfl⟩
  constructor
  · exact Or.inl
  · rintro (hp | ⟨h1, h2⟩)
    · exact hp
    · omega

lemma heapGrows_trans {h1 h2 h3 : Heap} (a : HeapGrows h1 h2)
    (b : HeapGrows h2 h3) : HeapGrows h1 h3 := by
  obtain ⟨n12, f12, i12, l12, m12⟩ := a
  obtain ⟨n23, f23, i23, l23, m23⟩ := b
  refine ⟨le_trans n12 n23, f23.trans f12, i23.trans i12, fun p => ?_,
    fun q hq => (m23 q (lt_of_lt_of_le hq n12)).trans (m12 q hq)⟩
  rw [l23 p, l12 p]
  constructor
  · rintro ((hp | ⟨a1, a2⟩) | ⟨a1, a2⟩)
    · exact Or.inl hp
    · exact Or.inr ⟨a1, by omega⟩
    · exact Or.inr ⟨by omega, a2⟩
  · rintro (hp | ⟨a1, a2⟩)
    · exact Or.inl (Or.inl hp)
    · by_cases hlt : p < h2.nextAddr
      · exact Or.inl (Or.inr ⟨a1, hlt⟩)
      · exact Or.inr ⟨by omega, a2⟩

/-- `convertFromBool` only ever grows the heap by fresh allocations. -/
lemma convertFromBool_grows (mysql : MYSQL) (v : Nat) (h : Heap) :
    HeapGrows h (convertFromBool mysql v h).2 := by
  by_cases hz : v = 0
  · subst hz
    rw [convertFromBool_none]
    exact heapGrows_self h
  · by_cases hv : mysql_get_server_version mysql < 80000
    · obtain ⟨_, hna, hlive, hfl, hif, _, _, hmem⟩ :=
        convertFromBool_pre_present mysql hv v hz h
      refine ⟨by omega, hfl, hif, fun p => ?_, fun q hq => hmem q (by omega)⟩
      rw [hlive, hna]
      simp only [List.mem_cons]
      constructor
      · rintro (hp | hp)
        · exact Or.inr ⟨le_of_eq hp.symm, by omega⟩
        · exact Or.inl hp
      · rintro (hp | ⟨a1, a2⟩)
        · exact Or.inr hp
        · exact Or.inl (by omega)
    · rw [convertFromBool_post_present mysql hv v hz h]
      refine ⟨by simp, rfl, rfl, fun p => ?_, fun q hq => rfl⟩
      simp only [List.mem_cons]
      constructor
      · rintro (hp | hp)
        · exact Or.inr ⟨le_of_eq hp.symm, by omega⟩
        · exact Or.inl hp
      · rintro (hp | ⟨a1, a2⟩)
        · exact Or.inr hp
        · exact Or.inl (by omega)

/-- `shadow_entries` only ever grows the heap by fresh allocations. -/
lemma shadow_entries_grows (mysql : MYSQL) :
    ∀ (ws : List WRAPPER_MYSQL_BIND) (h : Heap),
      HeapGrows h (shadow_entries mysql ws h).2
  | [], h => heapGrows_self h
  | w :: ws, h => by
      simp only [shadow_entries]
      exact heapGrows_trans
        (heapGrows_trans (convertFromBool_grows mysql w.is_null h)
          (convertFromBool_grows mysql w.error _))
        (shadow_entries_grows mysql ws _)

/-- `convert_from_MYSQL_BIND` changes nothing in the heap except, possibly,
the bytes at the descriptor's `is_null` and `error` reference addresses. -/
lemma convert_from_shape (mysql : MYSQL) (b : MYSQL_BIND)
    (w : WRAPPER_MYSQL_BIND) (h : Heap) :
    (convert_from_MYSQL_BIND mysql b w h).2.nextAddr = h.nextAddr ∧
    (convert_from_MYSQL_BIND mysql b w h).2.live = h.live ∧
    (convert_from_MYSQL_BIND mysql b w h).2.freeLog = h.freeLog ∧
    (convert_from_MYSQL_BIND mysql b w h).2.invalidFree = h.invalidFree ∧
    (∀ q, q ≠ w.is_null → q ≠ w.error →
      (convert_from_MYSQL_BIND mysql b w h).2.mem q = h.mem q) := by
  unfold convert_from_MYSQL_BIND Heap.store
  by_cases hn : w.is_null ≠ 0 <;> by_cases he : w.error ≠ 0 <;>
    simp [hn, he] <;> intro q hq1 hq2 <;> simp [hq1, hq2]

/-- The backward loop changes nothing in the heap except, possibly, the bytes
at the descriptors' `is_null`/`error` reference addresses. -/
lemma convert_from_loop_shape (mysql : MYSQL) :
    ∀ (bs : List MYSQL_BIND) (ws : List WRAPPER_MYSQL_BIND) (h : Heap),
      (convert_from_loop mysql bs ws h).2.nextAddr = h.nextAddr ∧
      (convert_from_loop mysql bs ws h).2.live = h.live ∧
      (convert_from_loop mysql bs ws h).2.freeLog = h.freeLog ∧
      (convert_from_loop mysql bs ws h).2.invalidFree = h.invalidFree ∧
      (∀ q, (∀ w ∈ ws, q ≠ w.is_null ∧ q ≠ w.error) →
        (convert_from_loop mysql bs ws h).2.mem q = h.mem q)
  | bs, [], h => by
      cases bs <;> exact ⟨rfl, rfl, rfl, rfl, fun q _ => rfl⟩
  | [], w :: ws, h => ⟨rfl, rfl, rfl, rfl, fun q _ => rfl⟩
  | b :: bs, w :: ws, h => by
      obtain ⟨s1, s2, s3, s4, s5⟩ := convert_from_shape mysql b w h
      obtain ⟨r1, r2, r3, r4, r5⟩ :=
        convert_from_loop_shape mysql bs ws (convert_from_MYSQL_BIND mysql b w h).2
      refine ⟨?_, ?_, ?_, ?_, ?_⟩
      · exact r1.trans s1
      · exact r2.trans s2
      · exact r3.trans s3
      · exact r4.trans s4
      · intro q hq
        have hstep := s5 q (hq w (by simp)).1 (hq w (by simp)).2
        have hrest := r5 q (fun w' hw' => hq w' (by simp [hw']))
        exact hrest.trans hstep

/-- `free_list` over a list whose non-null entries are live and pairwise
distinct frees exactly those entries, in order, and never performs an
invalid (double) free. -/
lemma free_list_spec :
    ∀ (l : List Nat) (h : Heap),
      (∀ p ∈ l, p ≠ 0 → p ∈ h.live) →
      (l.filter (fun p => p != 0)).Nodup →
      h.invalidFree = false →
      (free_list l h).invalidFree = false ∧
      (free_list l h).freeLog = h.freeLog ++ l.filter (fun p => p != 0)
  | [], h, hlive, hnd, hif => ⟨hif, by simp [free_list]⟩
  | p :: ps, h, hlive, hnd, hif => by
      by_cases hz : p = 0
      · subst hz
        have hfree : Heap.free h 0 = h := by simp [Heap.free]
        have := free_list_spec ps h (fun q hq => hlive q (by simp [hq]))
          (by simpa using hnd) hif
        simpa [free_list, hfree] using this
      · have hpl : p ∈ h.live := hlive p (by simp) hz
        have hfree : Heap.free h p =
            { h with live := h.live.erase p, freeLog := h.freeLog ++ [p] } := by
          simp [Heap.free, hz, hpl]
        have hfilter : (p :: ps).filter (fun p => p != 0)
            = p :: ps.filter (fun p => p != 0) := by
          simp [List.filter_cons, hz]
        rw [hfilter] at hnd
        have hnotmem : p ∉ ps.filter (fun p => p != 0) :=
          (List.nodup_cons.mp hnd).1
        have hlive' : ∀ q ∈ ps, q ≠ 0 → q ∈ (Heap.free h p).live := by
          intro q hq hqz
          have hqp : q ≠ p := by
            intro hEq
            exact hnotmem (hEq ▸ List.mem_filter.mpr ⟨hq, by simpa using hqz⟩)
          rw [hfree]
          exact (List.mem_erase_of_ne hqp).mpr (hlive q (by simp [hq]) hqz)
        have hrec := free_list_spec ps (Heap.free h p) hlive'
          (List.nodup_cons.mp hnd).2 (by rw [hfree]; exact hif)
        refine ⟨hrec.1, ?_⟩
        rw [show free_list (p :: ps) h = free_list ps (Heap.free h p) from rfl,
          hrec.2, hfree, hfilter]
        simp

/-- Under a pre-cutover version every non-null shadow entry is a fresh
allocation: at or above the starting fresh-address mark, below the final one,
and live in the final heap. -/
lemma shadow_entries_fresh (mysql : MYSQL)
    (hv : mysql_get_server_version mysql < 80000) :
    ∀ (ws : List WRAPPER_MYSQL_BIND) (h : Heap),
      ∀ p ∈ (shadow_entries mysql ws h).1, p ≠ 0 →
        h.nextAddr ≤ p ∧ p < (shadow_entries mysql ws h).2.nextAddr ∧
        p ∈ (shadow_entries mysql ws h).2.live
  | [], h => by simp [shadow_entries]
  | w :: ws, h => by
      obtain ⟨gn2, -, -, gl2, -⟩ :=
        convertFromBool_grows mysql w.error (convertFromBool mysql w.is_null h).2
      obtain ⟨gn3, -, -, gl3, -⟩ :=
        shadow_entries_grows mysql ws
          (convertFromBool mysql w.error (convertFromBool mysql w.is_null h).2).2
      simp only [shadow_entries, List.mem_cons]
      rintro p (hp | hp | hp) hpz
      · by_cases hn : w.is_null = 0
        · rw [hn, convertFromBool_none] at hp
          exact absurd hp hpz
        · obtain ⟨c1, c2, c3, -, -, -, -, -⟩ :=
            convertFromBool_pre_present mysql hv w.is_null hn h
          subst hp
          rw [c1]
          have hmem1 : h.nextAddr ∈
              (convertFromBool mysql w.is_null h).2.live := by
            rw [c3]; exact List.mem_cons_self _ _
          refine ⟨le_rfl, by omega, ?_⟩
          exact (gl3 _).mpr (Or.inl ((gl2 _).mpr (Or.inl hmem1)))
      · by_cases hn : w.error = 0
        · rw [hn, convertFromBool_none] at hp
          exact absurd hp hpz
        · obtain ⟨gn1, -, -, -, -⟩ := convertFromBool_grows mysql w.is_null h
          obtain ⟨c1, c2, c3, -, -, -, -, -⟩ :=
            convertFromBool_pre_present mysql hv w.error hn
              (convertFromBool mysql w.is_null h).2
          subst hp
          rw [c1]
          have hmem2 : (convertFromBool mysql w.is_null h).2.nextAddr ∈
              (convertFromBool mysql w.error
                (convertFromBool mysql w.is_null h).2).2.live := by
            rw [c3]; exact List.mem_cons_self _ _
          refine ⟨by omega, by omega, ?_⟩
          exact (gl3 _).mpr (Or.inl hmem2)
      · obtain ⟨gn1, -, -, -, -⟩ := convertFromBool_grows mysql w.is_null h
        obtain ⟨b1, b2, b3⟩ := shadow_entries_fresh mysql hv ws
          (convertFromBool mysql w.error
            (convertFromBool mysql w.is_null h).2).2 p hp hpz
        exact ⟨by omega, b2, b3⟩

/-- Under a pre-cutover version the non-null shadow entries are produced at
strictly increasing addresses. -/
lemma shadow_entries_sorted (mysql : MYSQL)
    (hv : mysql_get_server_version mysql < 80000) :
    ∀ (ws : List WRAPPER_MYSQL_BIND) (h : Heap),
      ((shadow_entries mysql ws h).1.filter (fun p => p != 0)).Sorted (· < ·)
  | [], h => by simp [shadow_entries]
  | w :: ws, h => by
      obtain ⟨gn1, -, -, -, -⟩ := convertFromBool_grows mysql w.is_null h
      obtain ⟨gn2, -, -, -, -⟩ :=
        convertFromBool_grows mysql w.error (convertFromBool mysql w.is_null h).2
      have hfresh := shadow_entries_fresh mysql hv ws
        (convertFromBool mysql w.error (convertFromBool mysql w.is_null h).2).2
      have IH := shadow_entries_sorted mysql hv ws
        (convertFromBool mysql w.error (convertFromBool mysql w.is_null h).2).2
      have hbound : ∀ b ∈ (shadow_entries mysql ws
          (convertFromBool mysql w.error
            (convertFromBool mysql w.is_null h).2).2).1.filter
            (fun p => p != 0),
          (convertFromBool mysql w.error
            (convertFromBool mysql w.is_null h).2).2.nextAddr ≤ b := by
        intro b hb
        obtain ⟨hb1, hb2⟩ := List.mem_filter.mp hb
        exact (hfresh b hb1 (by simpa using hb2)).1
      have h1val : (convertFromBool mysql w.is_null h).1 ≠ 0 →
          (convertFromBool mysql w.is_null h).1 = h.nextAddr ∧
          h.nextAddr < (convertFromBool mysql w.is_null h).2.nextAddr := by
        intro hz
        by_cases hn : w.is_null = 0
        · rw [hn, convertFromBool_none] at hz
          exact absurd rfl hz
        · obtain ⟨c1, c2, -, -, -, -, -, -⟩ :=
            convertFromBool_pre_present mysql hv w.is_null hn h
          exact ⟨c1, by omega⟩
      have h2val : (convertFromBool mysql w.error
            (convertFromBool mysql w.is_null h).2).1 ≠ 0 →
          (convertFromBool mysql w.error
            (convertFromBool mysql w.is_null h).2).1
              = (convertFromBool mysql w.is_null h).2.nextAddr ∧
          (convertFromBool mysql w.is_null h).2.nextAddr
            < (convertFromBool mysql w.error
                (convertFromBool mysql w.is_null h).2).2.nextAddr := by
        intro hz
        by_cases hn : w.error = 0
        · rw [hn, convertFromBool_none] at hz
          exact absurd rfl hz
        · obtain ⟨c1, c2, -, -, -, -, -, -⟩ :=
            convertFromBool_pre_present mysql hv w.error hn
              (convertFromBool mysql w.is_null h).2
          exact ⟨c1, by omega⟩
      simp only [shadow_entries, List.filter_cons]
      by_cases hz1 : (convertFromBool mysql w.is_null h).1 = 0 <;>
        by_cases hz2 : (convertFromBool mysql w.error
          (convertFromBool mysql w.is_null h).2).1 = 0
      · rw [if_neg (by simp [hz1]), if_neg (by simp [hz2])]
        exact IH
      · rw [if_neg (by simp [hz1]), if_pos (by simp [hz2])]
        obtain ⟨e2, hlt2⟩ := h2val hz2
        refine List.sorted_cons.mpr ⟨fun b hb => ?_, IH⟩
        have := hbound b hb
        omega
      · rw [if_pos (by simp [hz1]), if_neg (by simp [hz2])]
        obtain ⟨e1, hlt1⟩ := h1val hz1
        refine List.sorted_cons.mpr ⟨fun b hb => ?_, IH⟩
        have := hbound b hb
        omega
      · rw [if_pos (by simp [hz1]), if_pos (by simp [hz2])]
        obtain ⟨e1, hlt1⟩ := h1val hz1
        obtain ⟨e2, hlt2⟩ := h2val hz2
        refine List.sorted_cons.mpr ⟨fun b hb => ?_,
          List.sorted_cons.mpr ⟨fun b hb => ?_, IH⟩⟩
        · rcases List.mem_cons.mp hb with hb | hb
          · omega
          · have := hbound b hb
            omega
        · have := hbound b hb
          omega

/-- Under a pre-cutover version, slot `2*k` (resp. `2*k+1`) of the
shadow-entry sequence encodes descriptor `k`'s `is_null` (resp. `error`)
reference: null exactly when the reference is absent, and otherwise a fresh
cell holding the legacy `0`/`1` encoding of the referenced boolean. -/
lemma shadow_entries_slots (mysql : MYSQL)
    (hv : mysql_get_server_version mysql < 80000) :
    ∀ (ws : List WRAPPER_MYSQL_BIND) (h : Heap), 0 < h.nextAddr →
      (∀ w ∈ ws, w.is_null < h.nextAddr ∧ w.error < h.nextAddr) →
      ∀ k, (hk : k < ws.length) → ∃ e1 e2,
        (shadow_entries mysql ws h).1.get? (2 * k) = some e1 ∧
        (shadow_entries mysql ws h).1.get? (2 * k + 1) = some e2 ∧
        (e1 = 0 ↔ (ws.get ⟨k, hk⟩).is_null = 0) ∧
        (e2 = 0 ↔ (ws.get ⟨k, hk⟩).error = 0) ∧
        (e1 ≠ 0 → (shadow_entries mysql ws h).2.mem e1
            = if h.mem (ws.get ⟨k, hk⟩).is_null = 0 then 0 else 1) ∧
        (e2 ≠ 0 → (shadow_entries mysql ws h).2.mem e2
            = if h.mem (ws.get ⟨k, hk⟩).error = 0 then 0 else 1)
  | [], h => by simp
  | w :: ws, h => by
      intro hpos hrefs k hk
      obtain ⟨gn1, -, -, -, gm1⟩ := convertFromBool_grows mysql w.is_null h
      obtain ⟨gn2, -, -, -, gm2⟩ :=
        convertFromBool_grows mysql w.error (convertFromBool mysql w.is_null h).2
      obtain ⟨gn3, -, -, -, gm3⟩ :=
        shadow_entries_grows mysql ws
          (convertFromBool mysql w.error
            (convertFromBool mysql w.is_null h).2).2
      cases k with
      | zero =>
          have slot1 : ((convertFromBool mysql w.is_null h).1 = 0
                ↔ w.is_null = 0) ∧
              ((convertFromBool mysql w.is_null h).1 ≠ 0 →
                (shadow_entries mysql ws
                    (convertFromBool mysql w.error
                      (convertFromBool mysql w.is_null h).2).2).2.mem
                  (convertFromBool mysql w.is_null h).1
                  = if h.mem w.is_null = 0 then 0 else 1) := by
            by_cases hn : w.is_null = 0
            · rw [hn, convertFromBool_none]
              simp [hn]
            · obtain ⟨c1, c2, -, -, -, -, c7, -⟩ :=
                convertFromBool_pre_present mysql hv w.is_null hn h
              refine ⟨?_, fun hz => ?_⟩
              · rw [c1]
                exact ⟨fun h0 => absurd h0 (by omega), fun h0 => absurd h0 hn⟩
              · rw [c1, gm3 _ (by omega), gm2 _ (by omega), c7]
          have slot2 : ((convertFromBool mysql w.error
                  (convertFromBool mysql w.is_null h).2).1 = 0
                ↔ w.error = 0) ∧
              ((convertFromBool mysql w.error
                  (convertFromBool mysql w.is_null h).2).1 ≠ 0 →
                (shadow_entries mysql ws
                    (convertFromBool mysql w.error
                      (convertFromBool mysql w.is_null h).2).2).2.mem
                  (convertFromBool mysql w.error
                    (convertFromBool mysql w.is_null h).2).1
                  = if h.mem w.error = 0 then 0 else 1) := by
            have href : w.error < h.nextAddr :=
              (hrefs w (List.mem_cons_self _ _)).2
            by_cases hn : w.error = 0
            · rw [hn, convertFromBool_none]
              simp [hn]
            · obtain ⟨c1, c2, -, -, -, -, c7, -⟩ :=
                convertFromBool_pre_present mysql hv w.error hn
                  (convertFromBool mysql w.is_null h).2
              refine ⟨?_, fun hz => ?_⟩
              · rw [c1]
                exact ⟨fun h0 => absurd h0 (by omega), fun h0 => absurd h0 hn⟩
              · rw [c1, gm3 _ (by omega), c7, gm1 _ href]
          refine ⟨(convertFromBool mysql w.is_null h).1,
            (convertFromBool mysql w.error
              (convertFromBool mysql w.is_null h).2).1,
            ?_, ?_, ?_, ?_, ?_, ?_⟩
          · simp [shadow_entries]
          · simp [shadow_entries]
          · exact slot1.1
          · exact slot2.1
          · intro hz
            have := slot1.2 hz
            simpa [shadow_entries] using this
          · intro hz
            have := slot2.2 hz
            simpa [shadow_entries] using this
      | succ k =>
          have hk' : k < ws.length := by simp at hk; omega
          have hpos' : 0 < (convertFromBool mysql w.error
              (convertFromBool mysql w.is_null h).2).2.nextAddr := by omega
          have htail : ∀ w' ∈ ws,
              w'.is_null < (convertFromBool mysql w.error
                (convertFromBool mysql w.is_null h).2).2.nextAddr ∧
              w'.error < (convertFromBool mysql w.error
                (convertFromBool mysql w.is_null h).2).2.nextAddr := by
            intro w' hw'
            have h1 := (hrefs w' (List.mem_cons_of_mem _ hw')).1
            have h2 := (hrefs w' (List.mem_cons_of_mem _ hw')).2
            exact ⟨by omega, by omega⟩
          obtain ⟨e1, e2, g1, g2, i1, i2, m1, m2⟩ :=
            shadow_entries_slots mysql hv ws
              (convertFromBool mysql w.error
                (convertFromBool mysql w.is_null h).2).2 hpos' htail k hk'
          have hrefk1 : (ws.get ⟨k, hk'⟩).is_null < h.nextAddr :=
            (hrefs _ (List.mem_cons_of_mem _ (ws.get_mem _ _))).1
          have hrefk2 : (ws.get ⟨k, hk'⟩).error < h.nextAddr :=
            (hrefs _ (List.mem_cons_of_mem _ (ws.get_mem _ _))).2
          have hm1 : (convertFromBool mysql w.error
                (convertFromBool mysql w.is_null h).2).2.mem
              (ws.get ⟨k, hk'⟩).is_null = h.mem (ws.get ⟨k, hk'⟩).is_null := by
            rw [gm2 _ (by omega), gm1 _ (by omega)]
          have hm2 : (convertFromBool mysql w.error
                (convertFromBool mysql w.is_null h).2).2.mem
              (ws.get ⟨k, hk'⟩).error = h.mem (ws.get ⟨k, hk'⟩).error := by
            rw [gm2 _ (by omega), gm1 _ (by omega)]
          rw [hm1] at m1
          rw [hm2] at m2
          refine ⟨e1, e2, ?_, ?_, i1, i2, m1, m2⟩
          · rw [show 2 * (k + 1) = 2 * k + 1 + 1 from by ring]
            simp only [shadow_entries, List.get?_cons_succ]
            exact g1
          · rw [show 2 * (k + 1) + 1 = 2 * k + 1 + 1 + 1 from by ring]
            simp only [shadow_entries, List.get?_cons_succ]
            exact g2

/-- Claim C4: under a pre-cutover server version, binding N descriptors
returns an allocation record of exactly `2*N` entries whose slots alternate,
in descriptor order, between the `is_null` shadow cell at slot `2*k` and the
`error` shadow cell at slot `2*k+1` (null exactly when the corresponding
reference is absent; otherwise a fresh live cell holding the legacy encoding
of the referenced flag); the non-null entries are pairwise distinct, and
`wrapper_release_params` on the record frees every non-null entry exactly
once — the free log gains exactly the non-null entries — with no invalid
(double) free. -/
theorem bind_param_allocation_symmetry
    (stmt : MYSQL_STMT) (nativeResult : Bool)
    (binds : List WRAPPER_MYSQL_BIND) (h0 : Heap)
    (hv : mysql_get_server_version stmt.mysql < 80000)
    (hpos : 0 < h0.nextAddr)
    (hrefs : ∀ w ∈ binds, w.is_null < h0.nextAddr ∧ w.error < h0.nextAddr)
    (hif : h0.invalidFree = false) :
    ∃ ap rest h1,
      wrapper_mysql_stmt_bind_param stmt nativeResult binds h0
          = (ap, rest, h1) ∧
      ap.length = 2 * binds.length ∧
      (∀ k, (hk : k < binds.length) → ∃ e1 e2,
        ap.get? (2 * k) = some e1 ∧ ap.get? (2 * k + 1) = some e2 ∧
        (e1 = 0 ↔ (binds.get ⟨k, hk⟩).is_null = 0) ∧
        (e2 = 0 ↔ (binds.get ⟨k, hk⟩).error = 0) ∧
        (e1 ≠ 0 → h0.nextAddr ≤ e1 ∧ e1 ∈ h1.live ∧
          h1.mem e1
            = if h0.mem (binds.get ⟨k, hk⟩).is_null = 0 then 0 else 1) ∧
        (e2 ≠ 0 → h0.nextAddr ≤ e2 ∧ e2 ∈ h1.live ∧
          h1.mem e2
            = if h0.mem (binds.get ⟨k, hk⟩).error = 0 then 0 else 1)) ∧
      (ap.filter (fun p => p != 0)).Nodup ∧
      (wrapper_release_params ap binds.length h1).invalidFree = false ∧
      (wrapper_release_params ap binds.length h1).freeLog
          = h1.freeLog ++ ap.filter (fun p => p != 0) := by
  have hlenrep : (List.replicate (binds.length * 2) (0 : Nat)).length
      = 0 * 2 + 2 * binds.length := by
    rw [List.length_replicate]; omega
  have hap := convert_to_loop_ap_pre stmt.mysql hv binds
    (List.replicate (binds.length * 2) 0) 0 h0 hlenrep
  simp only [Nat.zero_mul, List.take_zero, List.nil_append] at hap
  have hheap := convert_to_loop_heap stmt.mysql binds
    (some (List.replicate (binds.length * 2) 0)) 0 h0
  obtain ⟨s1, s2, s3, s4, s5⟩ := convert_from_loop_shape stmt.mysql
    (convert_to_loop stmt.mysql binds
      (some (List.replicate (binds.length * 2) 0)) 0 h0).1
    binds (shadow_entries stmt.mysql binds h0).2
  obtain ⟨gn, gf, gi, gl, gm⟩ := shadow_entries_grows stmt.mysql binds h0
  have hfresh := shadow_entries_fresh stmt.mysql hv binds h0
  have hnodup : ((shadow_entries stmt.mysql binds h0).1.filter
      (fun p => p != 0)).Nodup :=
    (shadow_entries_sorted stmt.mysql hv binds h0).nodup
  have hselen := shadow_entries_length stmt.mysql binds h0
  have hw : wrapper_mysql_stmt_bind_param stmt nativeResult binds h0
      = ((shadow_entries stmt.mysql binds h0).1,
         (convert_from_loop stmt.mysql
           (convert_to_loop stmt.mysql binds
             (some (List.replicate (binds.length * 2) 0)) 0 h0).1 binds
           (shadow_entries stmt.mysql binds h0).2).1,
         (convert_from_loop stmt.mysql
           (convert_to_loop stmt.mysql binds
             (some (List.replicate (binds.length * 2) 0)) 0 h0).1 binds
           (shadow_entries stmt.mysql binds h0).2).2) := by
    simp only [wrapper_mysql_stmt_bind_param, hap, hheap, Option.getD_some]
  have hlivefb : ∀ p ∈ (shadow_entries stmt.mysql binds h0).1, p ≠ 0 →
      p ∈ (convert_from_loop stmt.mysql
        (convert_to_loop stmt.mysql binds
          (some (List.replicate (binds.length * 2) 0)) 0 h0).1 binds
        (shadow_entries stmt.mysql binds h0).2).2.live := by
    intro p hp hpz
    rw [s2]
    exact (hfresh p hp hpz).2.2
  have hiffb : (convert_from_loop stmt.mysql
      (convert_to_loop stmt.mysql binds
        (some (List.replicate (binds.length * 2) 0)) 0 h0).1 binds
      (shadow_entries stmt.mysql binds h0).2).2.invalidFree = false := by
    rw [s4, gi, hif]
  have htake : (shadow_entries stmt.mysql binds h0).1.take
      (binds.length * 2) = (shadow_entries stmt.mysql binds h0).1 :=
    List.take_of_length_le (by rw [hselen]; omega)
  obtain ⟨fl1, fl2⟩ := free_list_spec (shadow_entries stmt.mysql binds h0).1
    (convert_from_loop stmt.mysql
      (convert_to_loop stmt.mysql binds
        (some (List.replicate (binds.length * 2) 0)) 0 h0).1 binds
      (shadow_entries stmt.mysql binds h0).2).2 hlivefb hnodup hiffb
  refine ⟨(shadow_entries stmt.mysql binds h0).1,
    (convert_from_loop stmt.mysql
      (convert_to_loop stmt.mysql binds
        (some (List.replicate (binds.length * 2) 0)) 0 h0).1 binds
      (shadow_entries stmt.mysql binds h0).2).1,
    (convert_from_loop stmt.mysql
      (convert_to_loop stmt.mysql binds
        (some (List.replicate (binds.length * 2) 0)) 0 h0).1 binds
      (shadow_entries stmt.mysql binds h0).2).2,
    hw, hselen, ?_, hnodup, ?_, ?_⟩
  · intro k hk
    obtain ⟨e1, e2, g1, g2, i1, i2, m1, m2⟩ :=
      shadow_entries_slots stmt.mysql hv binds h0 hpos hrefs k hk
    have hne : ∀ e, e ≠ 0 → e ∈ (shadow_entries stmt.mysql binds h0).1 →
        ∀ w ∈ binds, e ≠ w.is_null ∧ e ≠ w.error := by
      intro e hez hemem w hw
      have hb := (hfresh e hemem hez).1
      have := hrefs w hw
      exact ⟨by omega, by omega⟩
    refine ⟨e1, e2, g1, g2, i1, i2, fun hz => ?_, fun hz => ?_⟩
    · obtain ⟨f1, f2, f3⟩ := hfresh e1 (List.get?_mem g1) hz
      refine ⟨f1, by rw [s2]; exact f3, ?_⟩
      rw [s5 e1 (hne e1 hz (List.get?_mem g1))]
      exact m1 hz
    · obtain ⟨f1, f2, f3⟩ := hfresh e2 (List.get?_mem g2) hz
      refine ⟨f1, by rw [s2]; exact f3, ?_⟩
      rw [s5 e2 (hne e2 hz (List.get?_mem g2))]
      exact m2 hz
  · show (free_list _ _).invalidFree = false
    rw [htake]
    exact fl1
  · show (free_list _ _).freeLog = _
    rw [htake]
    exact fl2

/-- Witness for C4 at a concrete input: one descriptor with both references
present, server version 79999, starting from a heap whose fresh-address mark
is 3 (so the references at addresses 1 and 2 are valid). -/
theorem bind_param_allocation_symmetry_witness :
    (mysql_get_server_version { serverVersion := 79999 } < 80000 ∧
      0 < (⟨3, [], fun _ => 0, 0, [], false⟩ : Heap).nextAddr ∧
      (∀ w ∈ [{ WRAPPER_MYSQL_BIND.zero with is_null := 1, error := 2 }],
        WRAPPER_MYSQL_BIND.is_null w
            < (⟨3, [], fun _ => 0, 0, [], false⟩ : Heap).nextAddr ∧
          WRAPPER_MYSQL_BIND.error w
            < (⟨3, [], fun _ => 0, 0, [], false⟩ : Heap).nextAddr) ∧
      (⟨3, [], fun _ => 0, 0, [], false⟩ : Heap).invalidFree = false) ∧
    (∃ ap rest h1,
      wrapper_mysql_stmt_bind_param
          { mysql := { serverVersion := 79999 }, bind := [] } false
          [{ WRAPPER_MYSQL_BIND.zero with is_null := 1, error := 2 }]
          ⟨3, [], fun _ => 0, 0, [], false⟩
        = (ap, rest, h1) ∧
      ap.length
          = 2 * [{ WRAPPER_MYSQL_BIND.zero with is_null := 1, error := 2 }].length ∧
      (∀ k, (hk : k <
          [{ WRAPPER_MYSQL_BIND.zero with is_null := 1, error := 2 }].length) →
        ∃ e1 e2,
        ap.get? (2 * k) = some e1 ∧ ap.get? (2 * k + 1) = some e2 ∧
        (e1 = 0 ↔
          ([{ WRAPPER_MYSQL_BIND.zero with is_null := 1, error := 2 }].get
            ⟨k, hk⟩).is_null = 0) ∧
        (e2 = 0 ↔
          ([{ WRAPPER_MYSQL_BIND.zero with is_null := 1, error := 2 }].get
            ⟨k, hk⟩).error = 0) ∧
        (e1 ≠ 0 → (⟨3, [], fun _ => 0, 0, [], false⟩ : Heap).nextAddr ≤ e1 ∧
          e1 ∈ h1.live ∧
          h1.mem e1 = if (⟨3, [], fun _ => 0, 0, [], false⟩ : Heap).mem
            ([{ WRAPPER_MYSQL_BIND.zero with is_null := 1, error := 2 }].get
              ⟨k, hk⟩).is_null = 0 then 0 else 1) ∧
        (e2 ≠ 0 → (⟨3, [], fun _ => 0, 0, [], false⟩ : Heap).nextAddr ≤ e2 ∧
          e2 ∈ h1.live ∧
          h1.mem e2 = if (⟨3, [], fun _ => 0, 0, [], false⟩ : Heap).mem
            ([{ WRAPPER_MYSQL_BIND.zero with is_null := 1, error := 2 }].get
              ⟨k, hk⟩).error = 0 then 0 else 1)) ∧
      (ap.filter (fun p => p != 0)).Nodup ∧
      (wrapper_release_params ap
          [{ WRAPPER_MYSQL_BIND.zero with is_null := 1, error := 2 }].length
          h1).invalidFree = false ∧
      (wrapper_release_params ap
          [{ WRAPPER_MYSQL_BIND.zero with is_null := 1, error := 2 }].length
          h1).freeLog
        = h1.freeLog ++ ap.filter (fun p => p != 0)) :=
  ⟨⟨by decide, by decide, by decide, rfl⟩,
   bind_param_allocation_symmetry
     { mysql := { serverVersion := 79999 }, bind := [] } false
     [{ WRAPPER_MYSQL_BIND.zero with is_null := 1, error := 2 }]
     ⟨3, [], fun _ => 0, 0, [], false⟩ (by decide) (by decide) (by decide) rfl⟩

/-- Counterexample to claim C6 as stated: at the cutover version 80000 (a
post-cutover version) `wrapper_mysql_stmt_bind_param` over one descriptor
still produces (allocates and returns) an allocation record, with `2 * 1`
entries. -/
theorem bind_param_record_post_cutover_cex :
    (wrapper_mysql_stmt_bind_param
        { mysql := { serverVersion := 80000 }, bind := [] } false
        [WRAPPER_MYSQL_BIND.zero] Heap.init).1.length = 2 := rfl

/-- Claim C6 amended: `wrapper_mysql_stmt_bind_param` produces an allocation
record of exactly `2 * N` entries for every server version; under a
post-cutover version the record carries no shadow cells — every entry is
null. -/
theorem bind_param_record_unconditional (stmt : MYSQL_STMT) (r : Bool)
    (binds : List WRAPPER_MYSQL_BIND) (h : Heap) :
    (wrapper_mysql_stmt_bind_param stmt r binds h).1.length
        = 2 * binds.length ∧
    (80000 ≤ mysql_get_server_version stmt.mysql →
      ∀ p ∈ (wrapper_mysql_stmt_bind_param stmt r binds h).1, p = 0) := by
  obtain ⟨ap2, hap2, hlen⟩ := convert_to_loop_ap_some stmt.mysql binds
    (List.replicate (binds.length * 2) 0) 0 h
  rcases hL : convert_to_loop stmt.mysql binds
      (some (List.replicate (binds.length * 2) 0)) 0 h with ⟨nb, ap1, h1⟩
  rw [hL] at hap2
  simp only at hap2
  subst hap2
  rw [List.length_replicate] at hlen
  constructor
  · simp [wrapper_mysql_stmt_bind_param, hL]
    omega
  · intro hv p hp
    have hpost := convert_to_loop_ap_post stmt.mysql (by omega) binds
      (some (List.replicate (binds.length * 2) 0)) 0 h
    rw [hL] at hpost
    simp only [Option.some.injEq] at hpost
    simp [wrapper_mysql_stmt_bind_param, hL, hpost] at hp
    exact hp.2

/-- Witness for the amended C6 at a concrete input: one descriptor at the
cutover version; the record has two entries, both null. -/
theorem bind_param_record_unconditional_witness :
    (80000 ≤ mysql_get_server_version { serverVersion := 80000 }) ∧
    (wrapper_mysql_stmt_bind_param
        { mysql := { serverVersion := 80000 }, bind := [] } true
        [WRAPPER_MYSQL_BIND.zero] Heap.init).1.length
      = 2 * [WRAPPER_MYSQL_BIND.zero].length ∧
    ∀ p ∈ (wrapper_mysql_stmt_bind_param
        { mysql := { serverVersion := 80000 }, bind := [] } true
        [WRAPPER_MYSQL_BIND.zero] Heap.init).1, p = 0 :=
  ⟨by decide,
   (bind_param_record_unconditional
      { mysql := { serverVersion := 80000 }, bind := [] } true
      [WRAPPER_MYSQL_BIND.zero] Heap.init).1,
   (bind_param_record_unconditional
      { mysql := { serverVersion := 80000 }, bind := [] } true
      [WRAPPER_MYSQL_BIND.zero] Heap.init).2 (by decide)⟩


/-- Claim C8: for every server version and heap, encoding an absent (null)
boolean reference performs no heap allocation and returns the null physical
value: `convertFromBool` is the identity on the heap and yields `0`. -/
theorem convertFromBool_absent (mysql : MYSQL) (h : Heap) :
    convertFromBool mysql 0 h = (0, h) := by
  simp [convertFromBool]

/-- Claim C3: for every boolean `b`, every server version `v` and every
non-null reference `a` whose byte holds the representation of `b`, decoding
the physical value produced by encoding the reference yields `b` again. -/
theorem codec_round_trip (v : Nat) (b : Bool) (a : Nat) (h : Heap)
    (ha : a ≠ 0) (hmem : h.mem a = if b then 1 else 0) :
    convertToBool { serverVersion := v }
      (convertFromBool { serverVersion := v } a h).1
      (convertFromBool { serverVersion := v } a h).2 = b := by
  rcases Nat.lt_or_ge v 80000 with hv | hv
  · cases b <;>
      simp [convertFromBool, convertToBool, mysql_get_server_version,
        Heap.malloc, Heap.store, ha, hmem, hv]
  · cases b <;>
      simp [convertFromBool, convertToBool, mysql_get_server_version,
        Heap.malloc, Heap.store, ha, hmem, Nat.not_lt.mpr hv]

/-- Witness for C3 at a concrete input: version 79999, `b = true`,
reference at address 5. -/
theorem codec_round_trip_witness :
    (5 : Nat) ≠ 0 ∧
    (Heap.init.store 5 1).mem 5 = (if (true : Bool) then 1 else 0) ∧
    convertToBool { serverVersion := 79999 }
      (convertFromBool { serverVersion := 79999 } 5 (Heap.init.store 5 1)).1
      (convertFromBool { serverVersion := 79999 } 5 (Heap.init.store 5 1)).2
      = true :=
  ⟨by decide, by decide,
   codec_round_trip 79999 true 5 (Heap.init.store 5 1) (by decide) (by decide)⟩

/-- Claim C9: under every pre-cutover server version, decoding a physical
value returns `true` exactly when the pointed-to byte equals `1`; every other
byte value decodes to `false`. -/
theorem convertToBool_legacy_byte (v : Nat) (hv : v < 80000) (p : Nat)
    (h : Heap) :
    (convertToBool { serverVersion := v } p h = true ↔ h.mem p = 1) := by
  simp [convertToBool, mysql_get_server_version, hv]

/-- Witness for C9 at a concrete input: version 79999 and a byte holding `2`
(a nonzero value other than `1`), which decodes to `false`. -/
theorem convertToBool_legacy_byte_witness :
    (79999 < 80000) ∧
    ((convertToBool { serverVersion := 79999 } 3 (Heap.init.store 3 2) = true
        ↔ (Heap.init.store 3 2).mem 3 = 1) ∧
      convertToBool { serverVersion := 79999 } 3 (Heap.init.store 3 2)
        = false) :=
  ⟨by decide,
   convertToBool_legacy_byte 79999 (by decide) 3 (Heap.init.store 3 2),
   by decide⟩

/-- Claim C5: for every descriptor whose `is_null` and `error` references are
absent, forward conversion followed by backward conversion reproduces the
whole stable descriptor unchanged (every scalar field plus `length`, `buffer`,
`row_ptr`, `extension`, and the untouched reference and callback fields),
under any server version, tracking mode and heap. -/
theorem convert_round_trip_fidelity (mysql : MYSQL)
    (w : WRAPPER_MYSQL_BIND) (nb : MYSQL_BIND)
    (ap : Option (List Nat)) (i : Nat) (h : Heap)
    (hn : w.is_null = 0) (he : w.error = 0) :
    (convert_from_MYSQL_BIND mysql
        (convert_to_MYSQL_BIND mysql w nb ap i h).1 w
        (convert_to_MYSQL_BIND mysql w nb ap i h).2.2).1 = w := by
  cases w
  simp_all [convert_to_MYSQL_BIND, convert_from_MYSQL_BIND, convertFromBool]

/-- Witness for C5 at a concrete input: a descriptor with absent references
and nonzero values in the other fields survives the round trip unchanged. -/
theorem convert_round_trip_fidelity_witness :
    ({ length := 7, is_null := 0, buffer := 9, error := 0, row_ptr := 11,
       store_param_func := 13, fetch_result := 15, skip_result := 17,
       buffer_length := 19, offset := 21, length_value := 23,
       param_number := 25, pack_length := 27, buffer_type := 29,
       error_value := true, is_unsigned := true, long_data_used := true,
       is_null_value := true, extension := 31 } : WRAPPER_MYSQL_BIND).is_null
        = 0 ∧
    (convert_from_MYSQL_BIND { serverVersion := 79999 }
        (convert_to_MYSQL_BIND { serverVersion := 79999 }
          { length := 7, is_null := 0, buffer := 9, error := 0, row_ptr := 11,
            store_param_func := 13, fetch_result := 15, skip_result := 17,
            buffer_length := 19, offset := 21, length_value := 23,
            param_number := 25, pack_length := 27, buffer_type := 29,
            error_value := true, is_unsigned := true, long_data_used := true,
            is_null_value := true, extension := 31 }
          MYSQL_BIND.zero none 0 Heap.init).1
        { length := 7, is_null := 0, buffer := 9, error := 0, row_ptr := 11,
          store_param_func := 13, fetch_result := 15, skip_result := 17,
          buffer_length := 19, offset := 21, length_value := 23,
          param_number := 25, pack_length := 27, buffer_type := 29,
          error_value := true, is_unsigned := true, long_data_used := true,
          is_null_value := true, extension := 31 }
        (convert_to_MYSQL_BIND { serverVersion := 79999 }
          { length := 7, is_null := 0, buffer := 9, error := 0, row_ptr := 11,
            store_param_func := 13, fetch_result := 15, skip_result := 17,
            buffer_length := 19, offset := 21, length_value := 23,
            param_number := 25, pack_length := 27, buffer_type := 29,
            error_value := true, is_unsigned := true, long_data_used := true,
            is_null_value := true, extension := 31 }
          MYSQL_BIND.zero none 0 Heap.init).2.2).1
      = { length := 7, is_null := 0, buffer := 9, error := 0, row_ptr := 11,
          store_param_func := 13, fetch_result := 15, skip_result := 17,
          buffer_length := 19, offset := 21, length_value := 23,
          param_number := 25, pack_length := 27, buffer_type := 29,
          error_value := true, is_unsigned := true, long_data_used := true,
          is_null_value := true, extension := 31 } :=
  ⟨rfl,
   convert_round_trip_fidelity { serverVersion := 79999 } _ MYSQL_BIND.zero
     none 0 Heap.init rfl rfl⟩

end MySQLWrapper
